import Mathlib

/-!
Shallow embedding of the middleware orchestration engine of the
`agent-typing` repository (`agent.ts`): messages, zod-style field schemas,
context-schema merging (`mergeContextSchemas`), default-state
initialization, the `beforeModel` hook loop with JS-spread state merging,
and `createAgent`/`invoke`.

JS records (zod object shapes, state objects, patches, control actions)
are modelled as association lists from field names to values; lookup takes
the first matching entry, and `jsMerge` mirrors the semantics of
`{...a, ...b}` / `Object.assign(a, b)` / `ZodObject.merge` (fields of `b`
override fields of `a`, key order of `a` preserved, new keys appended).
-/

namespace AgentTyping

/-- Message roles, from the `BaseMessage` constructor's `role` parameter. -/
inductive Role where
  | user
  | assistant
  | system
deriving DecidableEq, Repr

/-- `class BaseMessage { role, content }`. -/
structure Message where
  role : Role
  content : String
deriving DecidableEq, Repr

/-- JS runtime values as far as the engine inspects them: strings, numbers,
booleans, message arrays, and nested objects. -/
inductive Value where
  | vStr : String → Value
  | vNum : Int → Value
  | vBool : Bool → Value
  | vMsgs : List Message → Value
  | vObj : List (String × Value) → Value
deriving Repr

/-- An association list standing for a JS object with fields of type `α`. -/
abbrev AList (α : Type) := List (String × α)

/-- Field lookup in a JS object: first matching key wins. -/
def alookup {α : Type} : AList α → String → Option α
  | [], _ => none
  | (k', v) :: rest, k => if k' = k then some v else alookup rest k

/-- `match x with some v => some v | none => y` — first-defined choice. -/
def orD {α : Type} (x y : Option α) : Option α :=
  match x with
  | some v => some v
  | none => y

/-- JS object spread `{...a, ...b}` (also `Object.assign(a, b)` and zod's
`ZodObject.merge`): every field of `b` overrides the same-named field of
`a` in place; fields of `b` not present in `a` are appended. -/
def jsMerge {α : Type} (a b : AList α) : AList α :=
  a.map (fun kv =>
    match alookup b kv.1 with
    | some v => (kv.1, v)
    | none => kv)
  ++ b.filter (fun kv => (alookup a kv.1).isNone)

/-- The zod value types appearing in the engine's schemas, restricted to
the primitive types the merged schemas are checked against. -/
inductive ZTy where
  | tStr
  | tNum
  | tBool
deriving DecidableEq, Repr

/-- Does a runtime value conform to a zod type? -/
def typeOk : ZTy → Value → Bool
  | ZTy.tStr, Value.vStr _ => true
  | ZTy.tNum, Value.vNum _ => true
  | ZTy.tBool, Value.vBool _ => true
  | _, _ => false

/-- One field of a zod object shape: its type plus an optional
`.default(...)` value.  A field without a default is required. -/
structure FieldSpec where
  ty : ZTy
  dflt : Option Value
deriving Repr

/-- A zod object schema is its ordered shape. -/
abbrev Schema := AList FieldSpec

/-- `ZodObject.parse`, as the engine uses it: walk the shape in order; a
present field is type-checked, a missing field falls back to its default
or is reported as an issue.  All failing field names are collected (zod
reports every issue), unknown keys are stripped. -/
def zparse : Schema → AList Value → Except (List String) (AList Value)
  | [], _ => .ok []
  | (k, spec) :: rest, raw =>
    match alookup raw k with
    | some v =>
      if typeOk spec.ty v then
        match zparse rest raw with
        | .ok r => .ok ((k, v) :: r)
        | .error es => .error es
      else
        match zparse rest raw with
        | .ok _ => .error [k]
        | .error es => .error (k :: es)
    | none =>
      match spec.dflt with
      | some d =>
        match zparse rest raw with
        | .ok r => .ok ((k, d) :: r)
        | .error es => .error es
      | none =>
        match zparse rest raw with
        | .ok _ => .error [k]
        | .error es => .error (k :: es)

/-- `interface ToolCall { id, name, args }`. -/
structure ToolCall where
  id : String
  name : String
  args : AList Value

/-- `interface ToolResult { id, result, error? }`. -/
structure ToolResult where
  id : String
  result : Value
  error : Option String

/-- The `tokenUsage` record of the runtime. -/
structure TokenUsage where
  inputTokens : Nat
  outputTokens : Nat
  totalTokens : Nat

/-- `interface Runtime` — the read-only per-invocation record handed to
every hook. -/
structure Runtime where
  toolCalls : List ToolCall
  toolResults : List ToolResult
  tokenUsage : TokenUsage
  context : AList Value
  currentIteration : Nat

/-- The `toolChoice` field of a prepared call. -/
inductive ToolChoice where
  | auto
  | none
  | required
  | function (name : String)

/-- `interface PreparedCall` — the mutable descriptor of the next
inference request (every field optional). -/
structure PreparedCall where
  model : Option String
  messages : Option (List Message)
  systemMessage : Option String
  toolChoice : Option ToolChoice
  tools : Option (List String)

/-- `interface RetryOptions` — options of the `retry` control action.
All fields optional in the source; nothing in `invoke` ever reads them. -/
structure RetryOptions where
  reason : Option String
  maxAttempts : Option Nat
  retryFrom : Option String

/-- A hook takes the current state object and the runtime and returns
either a JS object (a state patch, or a control action when it carries a
`type` field) or `undefined` (`none`). -/
abbrev Hook := AList Value → Runtime → Option (AList Value)

/-- `interface IMiddleware`: name, optional state/context schemas, and the
optional `prepareCall` / `beforeModel` / `afterModel` hooks. -/
structure Middleware where
  name : String
  stateSchema : Option Schema
  contextSchema : Option Schema
  prepareCall : Option (PreparedCall → AList Value → Runtime → Option PreparedCall)
  beforeModel : Option Hook
  afterModel : Option Hook

/-- The configuration object accepted by `createAgent`. -/
structure AgentConfig where
  model : Option String
  tools : Option (List String)
  contextSchema : Option Schema
  middlewares : List Middleware

/-- `mergeContextSchemas(contextSchema, middlewares)`: start from the
top-level context schema (or the empty object schema) and fold each
middleware's context schema into it with `ZodObject.merge`. -/
def mergeContextSchemas (contextSchema : Option Schema)
    (middlewares : List Middleware) : Schema :=
  middlewares.foldl
    (fun acc mw =>
      match mw.contextSchema with
      | some s => jsMerge acc s
      | none => acc)
    (contextSchema.getD [])

/-- The middleware-state initialization block of `invoke`, generalized
over the accumulator: for each middleware with a `stateSchema`, parse `{}`
against it (collecting the schema's default values) and
`Object.assign` the result onto the accumulator. -/
def initMwStatesFrom (acc : AList Value) :
    List Middleware → Except (List String) (AList Value)
  | [] => .ok acc
  | mw :: rest =>
    match mw.stateSchema with
    | some s =>
      match zparse s [] with
      | .ok d => initMwStatesFrom (jsMerge acc d) rest
      | .error es => .error es
    | none => initMwStatesFrom acc rest

/-- The `middlewareStates` record of `invoke`, built from the empty
object. -/
def initMwStates (middlewares : List Middleware) :
    Except (List String) (AList Value) :=
  initMwStatesFrom [] middlewares

/-- The `initialState` of `invoke`:
`{ ...middlewareStates, messages: [new BaseMessage('user', message)] }`. -/
def initialState (middlewares : List Middleware) (message : String) :
    Except (List String) (AList Value) :=
  match initMwStates middlewares with
  | .ok d => .ok (jsMerge d [("messages", Value.vMsgs [⟨Role.user, message⟩])])
  | .error es => .error es

/-- The runtime record `invoke` constructs after validating the context. -/
def mkRuntime (context : AList Value) : Runtime :=
  { toolCalls := []
    toolResults := []
    tokenUsage := ⟨0, 0, 0⟩
    context := context
    currentIteration := 0 }

/-- The middleware-processing loop of `invoke`: for each middleware with a
`beforeModel` hook, call it on the current state; a returned object
carrying a `type` field is treated as a control action (the stub leaves
the state unchanged and continues), any other returned object is spread
onto the current state; `undefined` leaves the state unchanged. -/
def runBeforeModel (rt : Runtime) : List Middleware → AList Value → AList Value
  | [], st => st
  | mw :: rest, st =>
    let st' :=
      match mw.beforeModel with
      | some hook =>
        match hook st rt with
        | some r => if (alookup r "type").isSome then st else jsMerge st r
        | none => st
      | none => st
    runBeforeModel rt rest st'

/-- `invoke(message, context)` of the agent returned by `createAgent`:
parse the caller context against the merged context schema (a parse
failure propagates as the thrown zod error), build the runtime, build the
initial state from the middleware state defaults plus the initial user
message, then run the `beforeModel` loop and return the resulting state. -/
def invoke (cfg : AgentConfig) (message : String) (rawCtx : AList Value) :
    Except (List String) (AList Value) :=
  match zparse (mergeContextSchemas cfg.contextSchema cfg.middlewares) rawCtx with
  | .error es => .error es
  | .ok context =>
    match initialState cfg.middlewares message with
    | .error es => .error es
    | .ok st => .ok (runBeforeModel (mkRuntime context) cfg.middlewares st)

/-- The object returned by `createAgent`. -/
structure Agent where
  invoke : String → AList Value → Except (List String) (AList Value)

/-- `createAgent(config)`: merges the context schemas once and returns the
`invoke` closure.  The function is total — it has no runtime failure
path. -/
def createAgent (cfg : AgentConfig) : Agent :=
  ⟨fun message rawCtx => invoke cfg message rawCtx⟩

/-! ### Lemmas about object lookup and spread-merge -/

theorem alookup_append {α : Type} (xs ys : AList α) (k : String) :
    alookup (xs ++ ys) k = orD (alookup xs k) (alookup ys k) := by
  induction xs with
  | nil => simp [alookup, orD]
  | cons kv rest ih =>
    obtain ⟨k', v⟩ := kv
    by_cases h : k' = k <;> simp [alookup, h, ih, orD]

theorem alookup_map_override {α : Type} (a b : AList α) (k : String) :
    alookup (a.map (fun kv =>
      match alookup b kv.1 with
      | some v => (kv.1, v)
      | none => kv)) k
      = (alookup a k).map (fun v => (alookup b k).getD v) := by
  induction a with
  | nil => simp [alookup]
  | cons kv rest ih =>
    obtain ⟨k', v'⟩ := kv
    by_cases h : k' = k
    · subst h
      cases hb : alookup b k' <;> simp [alookup, hb]
    · cases hb : alookup b k' <;> simp [alookup, h, hb, ih]

theorem alookup_filter_notin {α : Type} (a b : AList α) (k : String) :
    alookup (b.filter (fun kv => (alookup a kv.1).isNone)) k
      = if (alookup a k).isNone then alookup b k else none := by
  induction b with
  | nil => simp [alookup]
  | cons kv rest ih =>
    obtain ⟨k', v'⟩ := kv
    by_cases h : k' = k
    · subst h
      cases ha : (alookup a k').isNone <;>
        simp [List.filter, alookup, ha, ih]
    · cases hp : (alookup a k').isNone <;>
        simp [List.filter, alookup, h, hp, ih]

/-- Per-field semantics of JS spread: the right object's field wins when
present, otherwise the left object's field survives. -/
theorem alookup_jsMerge {α : Type} (a b : AList α) (k : String) :
    alookup (jsMerge a b) k = orD (alookup b k) (alookup a k) := by
  unfold jsMerge
  rw [alookup_append, alookup_map_override, alookup_filter_notin]
  cases ha : alookup a k <;> cases hb : alookup b k <;> simp [orD]

/-- `initMwStatesFrom` splits along list append. -/
theorem initMwStatesFrom_append (acc : AList Value)
    (xs ys : List Middleware) :
    initMwStatesFrom acc (xs ++ ys)
      = match initMwStatesFrom acc xs with
        | .ok d => initMwStatesFrom d ys
        | .error es => .error es := by
  induction xs generalizing acc with
  | nil => simp [initMwStatesFrom]
  | cons mw rest ih =>
    cases hs : mw.stateSchema with
    | none => simp [initMwStatesFrom, hs, ih]
    | some s =>
      cases hp : zparse s [] with
      | ok d => simp [initMwStatesFrom, hs, hp, ih]
      | error es => simp [initMwStatesFrom, hs, hp]

/-! ### Concrete middlewares used as witnesses and counterexample inputs -/

/-- Middleware declaring context field `x : number` and nothing else. -/
def mwCtxNumX : Middleware :=
  ⟨"ctxNumX", none, some [("x", ⟨ZTy.tNum, none⟩)], none, none, none⟩

/-- Middleware declaring context field `x : string` and nothing else. -/
def mwCtxStrX : Middleware :=
  ⟨"ctxStrX", none, some [("x", ⟨ZTy.tStr, none⟩)], none, none, none⟩

/-- Hook recording that it ran. -/
def hookMarker : Hook := fun _ _ => some [("ran", Value.vBool true)]

/-- Middleware whose `beforeModel` records that it ran. -/
def mwMarker : Middleware := ⟨"marker", none, none, none, some hookMarker, none⟩

/-- Hook returning a `terminate` control action carrying an error. -/
def hookTerminateErr : Hook := fun _ _ =>
  some [("type", Value.vStr "terminate"), ("error", Value.vStr "stop")]

/-- Middleware whose `beforeModel` issues `terminate` with an error. -/
def mwTerminateErr : Middleware :=
  ⟨"terminator", none, none, none, some hookTerminateErr, none⟩

/-- Hook returning the state patch `{m2ran: true}`. -/
def hookPatch2 : Hook := fun _ _ => some [("m2ran", Value.vBool true)]

/-- Middleware whose `beforeModel` patches `m2ran` into the state. -/
def mwPatch2 : Middleware := ⟨"patcher2", none, none, none, some hookPatch2, none⟩

/-- Hook returning a control action that carries a `stateUpdate`. -/
def hookCtlUpdate : Hook := fun _ _ =>
  some [("type", Value.vStr "terminate"),
        ("stateUpdate", Value.vObj [("x", Value.vNum 99)])]

/-- Middleware whose `beforeModel` issues a control action carrying a
`stateUpdate`. -/
def mwCtlUpdate : Middleware :=
  ⟨"ctlUpdate", none, none, none, some hookCtlUpdate, none⟩

/-- Hook patching `x := 1`. -/
def hookSetX1 : Hook := fun _ _ => some [("x", Value.vNum 1)]

/-- Hook patching `x := 2`. -/
def hookSetX2 : Hook := fun _ _ => some [("x", Value.vNum 2)]

/-- Middleware whose `beforeModel` patches `x := 1`. -/
def mwSetX1 : Middleware := ⟨"setX1", none, none, none, some hookSetX1, none⟩

/-- Middleware whose `beforeModel` patches `x := 2`. -/
def mwSetX2 : Middleware := ⟨"setX2", none, none, none, some hookSetX2, none⟩

/-- Hook used as an `afterModel` hook recording that the after phase ran. -/
def hookAfterRan : Hook := fun _ _ => some [("afterRan", Value.vBool true)]

/-- Middleware with only an `afterModel` hook. -/
def mwAfterOnly : Middleware := ⟨"afterOnly", none, none, none, none, some hookAfterRan⟩

/-- Hook recording the `currentIteration` it observes. -/
def hookSeenIter : Hook := fun _ rt =>
  some [("seenIteration", Value.vNum (rt.currentIteration : Int))]

/-- Middleware whose `beforeModel` records the iteration counter. -/
def mwSeenIter : Middleware := ⟨"seenIter", none, none, none, some hookSeenIter, none⟩

/-- Hook returning a `retry` control action. -/
def hookRetry : Hook := fun _ _ =>
  some [("type", Value.vStr "retry"),
        ("stateUpdate", Value.vObj [("note", Value.vStr "again")])]

/-- Middleware whose `beforeModel` always issues `retry`. -/
def mwRetry : Middleware := ⟨"retrier", none, none, none, some hookRetry, none⟩

/-- Middleware declaring state field `count : number` with default `0`. -/
def mwCount : Middleware :=
  ⟨"counter", some [("count", ⟨ZTy.tNum, some (Value.vNum 0)⟩)], none, none, none, none⟩

/-- Middleware declaring state field `x : number` with default `1`. -/
def mwDup1 : Middleware :=
  ⟨"dup1", some [("x", ⟨ZTy.tNum, some (Value.vNum 1)⟩)], none, none, none, none⟩

/-- Middleware declaring state field `x : number` with default `2`. -/
def mwDup2 : Middleware :=
  ⟨"dup2", some [("x", ⟨ZTy.tNum, some (Value.vNum 2)⟩)], none, none, none, none⟩

/-! ### Claim theorems -/

/-- C2: `invoke` validates and defaults the caller-supplied context
against the merged context schema before anything else; a validation
failure makes the whole invocation return that error, independently of the
middlewares' hooks (so no hook runs, no node executes, and no
inference-provider call can be made — the error is the result for every
possible hook behavior). -/
theorem c2_context_validation_aborts_first (cfg : AgentConfig)
    (message : String) (rawCtx : AList Value) (es : List String)
    (h : zparse (mergeContextSchemas cfg.contextSchema cfg.middlewares) rawCtx
          = .error es) :
    invoke cfg message rawCtx = .error es := by
  simp [invoke, h]

/-- Witness for C2: a required context field `userId` with no default,
invoked with `{}`, aborts with the error naming `userId`, even though the
configured middleware has a `beforeModel` hook. -/
theorem c2_witness :
    invoke ⟨none, none, some [("userId", ⟨ZTy.tStr, none⟩)], [mwMarker]⟩ "hi" []
      = .error ["userId"] :=
  c2_context_validation_aborts_first
    ⟨none, none, some [("userId", ⟨ZTy.tStr, none⟩)], [mwMarker]⟩ "hi" [] ["userId"] rfl

/-- C5: in the `beforeModel` loop, each middleware's patch is spread onto
the accumulated state before the next middleware runs (the second hook is
applied to `jsMerge st p1`), and when two patches set the same field the
later middleware's value wins regardless of the earlier one's value. -/
theorem c5_last_wins_merge (m1 m2 : Middleware) (h1 h2 : Hook)
    (st p1 p2 : AList Value) (rt : Runtime) (k : String) (v : Value)
    (hm1 : m1.beforeModel = some h1)
    (hp1 : h1 st rt = some p1)
    (hc1 : alookup p1 "type" = none)
    (hm2 : m2.beforeModel = some h2)
    (hp2 : h2 (jsMerge st p1) rt = some p2)
    (hc2 : alookup p2 "type" = none)
    (hk : alookup p2 k = some v) :
    runBeforeModel rt [m1, m2] st = jsMerge (jsMerge st p1) p2
    ∧ alookup (runBeforeModel rt [m1, m2] st) k = some v := by
  have hrun : runBeforeModel rt [m1, m2] st = jsMerge (jsMerge st p1) p2 := by
    simp [runBeforeModel, hm1, hp1, hc1, hm2, hp2, hc2]
  refine ⟨hrun, ?_⟩
  rw [hrun, alookup_jsMerge, hk]
  rfl

/-- Witness for C5: two middlewares both setting `x`; the pipeline yields
the sequential merge and the later middleware's value `2` for `x`. -/
theorem c5_witness :
    runBeforeModel (mkRuntime []) [mwSetX1, mwSetX2] []
      = jsMerge (jsMerge [] [("x", Value.vNum 1)]) [("x", Value.vNum 2)]
    ∧ alookup (runBeforeModel (mkRuntime []) [mwSetX1, mwSetX2] []) "x"
      = some (Value.vNum 2) :=
  c5_last_wins_merge mwSetX1 mwSetX2 hookSetX1 hookSetX2
    [] [("x", Value.vNum 1)] [("x", Value.vNum 2)] (mkRuntime [])
    "x" (Value.vNum 2) rfl rfl rfl rfl rfl rfl rfl

/-- C7: computing the middleware default state twice, with nothing in
between, yields identical field-to-value mappings — `initMwStates` is a
deterministic (pure) computation of the middleware list. -/
theorem c7_default_state_deterministic (mws : List Middleware)
    (r1 r2 : AList Value)
    (h1 : initMwStates mws = .ok r1) (h2 : initMwStates mws = .ok r2) :
    r1 = r2 := by
  rw [h1] at h2
  exact Except.ok.inj h2

/-- Witness for C7: the default state of a `count`-declaring middleware,
computed twice, is the same record both times. -/
theorem c7_witness :
    ([("count", Value.vNum 0)] : AList Value) = [("count", Value.vNum 0)] :=
  c7_default_state_deterministic [mwCount]
    [("count", Value.vNum 0)] [("count", Value.vNum 0)] rfl rfl

/-- C10: a `beforeModel` hook returning a control action (an object with a
`type` field) leaves the accumulated state unchanged: its `stateUpdate` is
never merged, and the remaining pipeline continues from exactly the state
that hook received. -/
theorem c10_control_action_preserves_state (rt : Runtime) (st : AList Value)
    (mw : Middleware) (rest : List Middleware) (h : Hook) (r : AList Value)
    (hm : mw.beforeModel = some h)
    (hr : h st rt = some r)
    (hc : (alookup r "type").isSome = true) :
    runBeforeModel rt (mw :: rest) st = runBeforeModel rt rest st := by
  simp [runBeforeModel, hm, hr, hc]

/-- Witness for C10: a control action carrying `stateUpdate: {x: 99}`
leaves the state `{x: 7}` untouched. -/
theorem c10_witness :
    runBeforeModel (mkRuntime []) [mwCtlUpdate] [("x", Value.vNum 7)]
      = runBeforeModel (mkRuntime []) [] [("x", Value.vNum 7)]
    ∧ runBeforeModel (mkRuntime []) [] [("x", Value.vNum 7)]
      = [("x", Value.vNum 7)] :=
  ⟨c10_control_action_preserves_state (mkRuntime []) [("x", Value.vNum 7)]
      mwCtlUpdate [] hookCtlUpdate
      [("type", Value.vStr "terminate"),
       ("stateUpdate", Value.vObj [("x", Value.vNum 99)])] rfl rfl rfl,
    rfl⟩

/-- C1 counterexample: with the top-level schema declaring `x : number`
and a middleware declaring `x : string`, `mergeContextSchemas` silently
keeps the later (middleware) definition for `x`, and `createAgent` plus
`invoke` succeed on the duplicated configuration — no
`DuplicateContextField` failure exists at construction time. -/
theorem c1_counterexample :
    mergeContextSchemas (some [("x", ⟨ZTy.tNum, none⟩)]) [mwCtxStrX]
      = [("x", ⟨ZTy.tStr, none⟩)]
    ∧ (createAgent ⟨none, none, some [("x", ⟨ZTy.tNum, none⟩)],
        [mwCtxStrX]⟩).invoke "hi" [("x", Value.vStr "a")]
      = .ok [("messages", Value.vMsgs [⟨Role.user, "hi"⟩])] :=
  ⟨rfl, rfl⟩

/-- C1 amended: `createAgent` never fails at construction time on
duplicated context field names; `mergeContextSchemas` resolves a
duplicated name silently, the last-merged schema's definition winning
regardless of the top-level schema and of all earlier middlewares. -/
theorem c1_amended_last_schema_wins (cs : Option Schema)
    (mws : List Middleware) (mw : Middleware) (s : Schema)
    (k : String) (sp : FieldSpec)
    (hms : mw.contextSchema = some s) (hk : alookup s k = some sp) :
    alookup (mergeContextSchemas cs (mws ++ [mw])) k = some sp := by
  unfold mergeContextSchemas
  rw [List.foldl_append]
  simp only [List.foldl, hms]
  rw [alookup_jsMerge, hk]
  rfl

/-- Witness for the amended C1: two middlewares both declaring context
field `x`; the merged schema holds the later declaration (`string`). -/
theorem c1_amended_witness :
    alookup (mergeContextSchemas none ([mwCtxNumX] ++ [mwCtxStrX])) "x"
      = some ⟨ZTy.tStr, none⟩ :=
  c1_amended_last_schema_wins none [mwCtxNumX] mwCtxStrX
    [("x", ⟨ZTy.tStr, none⟩)] "x" ⟨ZTy.tStr, none⟩ rfl rfl

/-- C8: when context validation and default-state initialization succeed,
the `beforeModel` loop starts from exactly the merged default state
patched with a `messages` field holding the single initial user message;
the `messages` field of that state is that one user message whatever the
defaults were, any other defaulted field keeps its value, and for a state
field declared by the last middleware the last declaration's default wins
over every earlier middleware in `mws1`. -/
theorem c8_initial_state (cs : Option Schema) (mws1 : List Middleware)
    (mw : Middleware) (s : Schema) (p d ctx rawCtx : AList Value)
    (k : String) (v : Value) (msg : String)
    (hms : mw.stateSchema = some s)
    (hp : zparse s [] = .ok p)
    (hd : initMwStates (mws1 ++ [mw]) = .ok d)
    (hk : alookup p k = some v)
    (hkm : k ≠ "messages")
    (hctx : zparse (mergeContextSchemas cs (mws1 ++ [mw])) rawCtx = .ok ctx) :
    invoke ⟨none, none, cs, mws1 ++ [mw]⟩ msg rawCtx
      = .ok (runBeforeModel (mkRuntime ctx) (mws1 ++ [mw])
          (jsMerge d [("messages", Value.vMsgs [⟨Role.user, msg⟩])]))
    ∧ alookup (jsMerge d [("messages", Value.vMsgs [⟨Role.user, msg⟩])])
        "messages" = some (Value.vMsgs [⟨Role.user, msg⟩])
    ∧ alookup (jsMerge d [("messages", Value.vMsgs [⟨Role.user, msg⟩])]) k
        = some v := by
  refine ⟨?_, ?_, ?_⟩
  · simp [invoke, initialState, hctx, hd]
  · rw [alookup_jsMerge]
    simp [alookup, orD]
  · have hdk : alookup d k = some v := by
      unfold initMwStates at hd
      rw [initMwStatesFrom_append] at hd
      cases h1 : initMwStatesFrom [] mws1 with
      | error es => rw [h1] at hd; cases hd
      | ok d0 =>
        rw [h1] at hd
        simp only [initMwStatesFrom, hms, hp] at hd
        have hdq : d = jsMerge d0 p := (Except.ok.inj hd).symm
        rw [hdq, alookup_jsMerge, hk]
        rfl
    rw [alookup_jsMerge]
    have : alookup [("messages", Value.vMsgs [⟨Role.user, msg⟩])] k = none := by
      have hne : ¬("messages" = k) := fun h => hkm h.symm
      simp [alookup, hne]
    rw [this, hdk]
    rfl

/-- Witness for C8: middlewares `dup1` and `dup2` both declare `x`; the
initial state maps `x` to the later default `2` and `messages` to the one
initial user message. -/
theorem c8_witness :
    invoke ⟨none, none, none, [mwDup1] ++ [mwDup2]⟩ "hi" []
      = .ok (runBeforeModel (mkRuntime []) ([mwDup1] ++ [mwDup2])
          (jsMerge [("x", Value.vNum 2)]
            [("messages", Value.vMsgs [⟨Role.user, "hi"⟩])]))
    ∧ alookup (jsMerge [("x", Value.vNum 2)]
        [("messages", Value.vMsgs [⟨Role.user, "hi"⟩])]) "messages"
      = some (Value.vMsgs [⟨Role.user, "hi"⟩])
    ∧ alookup (jsMerge [("x", Value.vNum 2)]
        [("messages", Value.vMsgs [⟨Role.user, "hi"⟩])]) "x"
      = some (Value.vNum 2) :=
  c8_initial_state none [mwDup1] mwDup2
    [("x", ⟨ZTy.tNum, some (Value.vNum 2)⟩)] [("x", Value.vNum 2)]
    [("x", Value.vNum 2)] [] [] "x" (Value.vNum 2) "hi"
    rfl rfl rfl rfl (by decide) rfl

/-- C3 (divergence exhibit): a `terminate(error)` control action returned
by the first middleware's `beforeModel` does not stop the before phase —
the second middleware's `beforeModel` still runs (its `m2ran` patch is in
the final state) and the invocation completes normally with no error. -/
theorem c3_hooks_after_control_action_still_run :
    invoke ⟨none, none, none, [mwTerminateErr, mwPatch2]⟩ "hi" []
      = .ok [("messages", Value.vMsgs [⟨Role.user, "hi"⟩]),
             ("m2ran", Value.vBool true)] :=
  rfl

/-- C4 (divergence exhibit): after a `beforeModel` phase with no control
action, `invoke` makes no inference-provider call, appends no assistant
message, and never runs the middleware's `afterModel` hook — the final
state is the untouched initial state. -/
theorem c4_no_provider_call_no_after_hooks :
    invoke ⟨none, none, none, [mwAfterOnly]⟩ "hi" []
      = .ok [("messages", Value.vMsgs [⟨Role.user, "hi"⟩])]
    ∧ alookup [("messages", Value.vMsgs [⟨Role.user, "hi"⟩])] "afterRan"
      = none :=
  ⟨rfl, rfl⟩

/-- C6 (divergence exhibit): the runtime handed to every `beforeModel`
hook carries `currentIteration = 0`; the counter is never incremented, so
the hooks of the first (and only) pass observe `0`, not `1`. -/
theorem c6_current_iteration_stays_zero :
    invoke ⟨none, none, none, [mwSeenIter]⟩ "hi" []
      = .ok [("messages", Value.vMsgs [⟨Role.user, "hi"⟩]),
             ("seenIteration", Value.vNum 0)] :=
  rfl

/-- C9 (divergence exhibit): a middleware that always issues a `retry`
control action produces a normal `.ok` outcome with the state untouched —
no attempt counter exists, the node is never re-entered, and no
`RetryExhausted` error can ever arise. -/
theorem c9_retry_never_exhausts :
    invoke ⟨none, none, none, [mwRetry]⟩ "hi" []
      = .ok [("messages", Value.vMsgs [⟨Role.user, "hi"⟩])] :=
  rfl

end AgentTyping
